import Mathlib

/-!
Verification of `tensorlakehouse_openeo_driver/file_reader/cloud_storage_file_reader.py`.

The module is pure parsing/validation glue: a `CloudStorageFileReader` class whose
constructor validates a bounding box, a temporal extent and a non-empty item list,
plus static helpers that parse URLs, look up dimension metadata inside a STAC item's
`cube:dimensions` mapping, translate https URLs to s3 URLs, and derive equality
filters from openEO process-graph fragments.

The shallow embedding below translates each Python function into a Lean function.
Python dicts (which preserve insertion order) become association lists
`List (String × _)`; Python `None`-able values become `Option`; functions whose
asserts can fire become `Except String _`; Python floats appearing only in exact
comparisons and `abs` become `ℚ`; `datetime` values, used only through `≤`, become
`Int` timestamps.  `urllib.parse.urlparse` (standard library) is modelled for the
`scheme://netloc/path` shape actually exercised, without userinfo/port/query
handling.
-/

set_option autoImplicit false

namespace CloudStorage

/-! ### Generic list/string helpers (Python string primitives) -/

/-- Model of Python `str.split(sep)` for a one-character separator, on char lists:
`"".split(".") = [""]`, separators at either end produce empty segments. -/
def splitOnChar (c : Char) : List Char → List (List Char)
  | [] => [[]]
  | a :: rest =>
    if a = c then [] :: splitOnChar c rest
    else
      match splitOnChar c rest with
      | [] => [[a]]
      | s :: ss => (a :: s) :: ss

/-- Model of Python `str.startswith`: `startsWithL pat s` is true iff `pat` is an
initial segment of `s`. -/
def startsWithL : List Char → List Char → Bool
  | [], _ => true
  | _ :: _, [] => false
  | p :: ps, c :: cs => p == c && startsWithL ps cs

/-- Index of the first occurrence of `c` in `l`, if any. -/
def findCharIdx (c : Char) : List Char → Option Nat
  | [] => none
  | a :: rest =>
    if a = c then some 0
    else
      match findCharIdx c rest with
      | some i => some (i + 1)
      | none => none

/-- Model of Python `str.find(c, start)`: index of the first occurrence of `c` at
position `≥ start`, or `none` (Python returns `-1`). -/
def findIdxFrom (l : List Char) (c : Char) (start : Nat) : Option Nat :=
  match findCharIdx c (l.drop start) with
  | some i => some (start + i)
  | none => none

/-- Model of Python `str.lower()` (ASCII). -/
def pyLower (s : String) : String := ⟨s.data.map Char.toLower⟩

/-- Predicate `isErrE e`: true iff the Python call raised (assertion/validation error). -/
def isErrE {α : Type} : Except String α → Bool
  | .error _ => true
  | .ok _ => false

/-- Predicate `isOkE e`: true iff the Python call returned normally. -/
def isOkE {α : Type} : Except String α → Bool
  | .ok _ => true
  | .error _ => false

/-! ### Model of `urllib.parse.urlparse`

Restricted to what the module exercises: a URL `scheme://netloc/path` is split at
the first occurrence of `"://"`; the scheme is lowercased; `hostname` is the
lowercased netloc, `None` when the netloc is empty.  A URL without `"://"` has an
empty scheme and netloc, and the whole string as path. -/

structure ParsedUrl where
  scheme : List Char
  netloc : List Char
  path : List Char
  deriving DecidableEq, Repr

/-- Split a char list at the first occurrence of the substring `"://"`. -/
def splitSchemeRest : List Char → Option (List Char × List Char)
  | [] => none
  | ':' :: '/' :: '/' :: rest => some ([], rest)
  | c :: rest =>
    match splitSchemeRest rest with
    | some (pre, post) => some (c :: pre, post)
    | none => none

/-- Model of `urllib.parse.urlparse` for `scheme://netloc/path` URLs. -/
def urlparse (url : List Char) : ParsedUrl :=
  match splitSchemeRest url with
  | none => { scheme := [], netloc := [], path := url }
  | some (pre, post) =>
    { scheme := pre.map Char.toLower
      netloc := post.takeWhile (fun c => c ≠ '/')
      path := post.dropWhile (fun c => c ≠ '/') }

/-- Model of `ParseResult.hostname`: lowercased netloc, `None` when empty. -/
def hostname (p : ParsedUrl) : Option (List Char) :=
  if p.netloc = [] then none else some (p.netloc.map Char.toLower)

/-! ### URL helpers of `CloudStorageFileReader` -/

/-- The non-s3 branch of `_extract_bucket_name_from_url`: take
`path[1:path.find("/", 1)]`, asserting `path.find("/", 1) > 1`. -/
def bucketFromPath (path : List Char) : Except String String :=
  match findIdxFrom path '/' 1 with
  | some e =>
    if 1 < e then .ok ⟨(path.take e).drop 1⟩
    else .error "Error! Unable to find bucket name"
  | none => .error "Error! Unable to find bucket name"

/-- Model of `CloudStorageFileReader._extract_bucket_name_from_url`: for an `s3` scheme with
a hostname, the bucket is the hostname; otherwise the first path segment after the
leading slash, asserting that a `/` ends it. -/
def extract_bucket_name_from_url (url : String) : Except String String :=
  let p := urlparse url.data
  if p.scheme = "s3".data then
    match hostname p with
    | some h => .ok ⟨h⟩
    | none => bucketFromPath p.path
  else bucketFromPath p.path

/-- Model of `CloudStorageFileReader._get_object`: `path[path.find("/", 1) + 1:]`, asserting
`path.find("/", 1) + 1 > 1` (i.e. the separator exists; Python `find` returns -1
when absent, making the index 0). -/
def get_object (url : String) : Except String String :=
  let p := urlparse url.data
  match findIdxFrom p.path '/' 1 with
  | some j => .ok ⟨p.path.drop (j + 1)⟩
  | none => .error "Error! Unable to find object name"

/-- Model of `CloudStorageFileReader._convert_https_to_s3`: assert the lowercased URL starts
with `"http"`, then rebuild `s3://bucket/object`. -/
def convert_https_to_s3 (url : String) : Except String String :=
  if startsWithL "http".data (pyLower url).data then
    match extract_bucket_name_from_url url with
    | .error msg => .error msg
    | .ok bucket =>
      match get_object url with
      | .error msg => .error msg
      | .ok obj => .ok ("s3://" ++ bucket ++ "/" ++ obj)
  else .error "AssertionError"

/-! ### Data model: STAC items, process-graph fragments, reader state -/

/-- A Python value appearing as a process-graph argument or a coordinate label:
either an `openeo_pg_parser_networkx` `ParameterReference` instance, an int, or a
string. -/
inductive PVal where
  | paramRef
  | pInt (n : Int)
  | pStr (s : String)
  deriving DecidableEq, BEq, Repr

/-- One entry of a STAC item's `cube:dimensions` mapping: the optional fields the
module reads (`axis`, `type`, `step`, `reference_system`). -/
structure DimEntry where
  axis : Option String
  type : Option String
  step : Option ℚ
  reference_system : Option Int
  deriving DecidableEq, Repr

/-- A STAC asset: the module only reads its `href`. -/
structure Asset where
  href : String
  deriving DecidableEq, Repr

/-- A STAC item as the module reads it: `item["assets"]` (an insertion-ordered
dict asset-id → asset) and `item["properties"]["cube:dimensions"]` (an
insertion-ordered dict dimension-name → entry). -/
structure Item where
  assets : List (String × Asset)
  cube_dimensions : List (String × DimEntry)
  deriving DecidableEq, Repr

/-- The `arguments` dict of a process-graph node: the module reads `x` always and
`y` when `x` is a `ParameterReference`. -/
structure PGArguments where
  x : PVal
  y : PVal
  deriving DecidableEq, Repr

/-- One process-graph node: `process_id` and `arguments`. -/
structure PGNode where
  process_id : String
  arguments : PGArguments
  deriving DecidableEq, Repr

/-- The `process_graph` value inside a property: the code asserts it is a dict;
anything else trips the assertion. -/
inductive PGVal where
  | dict (nodes : List (String × PGNode))
  | nonDict
  deriving DecidableEq, Repr

/-- The value of one user-supplied property: a mapping holding a `process_graph`
fragment. -/
structure PropEntry where
  process_graph : PGVal
  deriving DecidableEq, Repr

/-- The reader's `properties` attribute when not `None`: either a dict
(insertion-ordered property-name → value) or some non-dict Python object, which
both `get_extra_dimensions_filter` and `_filter_by_extra_dimensions` treat like
`None`. -/
inductive PyProps where
  | dict (entries : List (String × PropEntry))
  | nonDict
  deriving DecidableEq, Repr

/-- A value of the `temporal_extent` tuple's components: a `datetime` (modelled as
an `Int` timestamp, ordered like `datetime`), Python `None`, or a non-`datetime`
object. -/
inductive PyTime where
  | dt (t : Int)
  | noneV
  | notDt
  deriving DecidableEq, Repr

/-- Shallow model of an `xarray.Dataset`: named coordinate axes with their label
lists.  `sel` with a label list keeps the labels present in that list. -/
structure Dataset where
  coords : List (String × List PVal)
  deriving DecidableEq, Repr

/-- Model of `xarray.Dataset.sel({dim: vals})`. -/
def Dataset.sel (d : Dataset) (dim : String) (vals : List PVal) : Dataset :=
  ⟨d.coords.map (fun kv => if kv.1 = dim then (kv.1, kv.2.filter (fun v => vals.contains v)) else kv)⟩

/-- The reader's stored state used by `create_s3filesystem` and the
properties-driven filters (`_endpoint` as stored, before the lowercasing
`endpoint` property is applied). -/
structure CloudStorageFileReader where
  endpoint_raw : String
  access_key_id : String
  secret_access_key : String
  properties : Option PyProps
  deriving DecidableEq, Repr

/-- The `endpoint` property: `self._endpoint.lower()`. -/
def CloudStorageFileReader.endpoint (r : CloudStorageFileReader) : String :=
  pyLower r.endpoint_raw

/-- The argument record passed to `s3fs.S3FileSystem(...)` by
`create_s3filesystem`. -/
structure S3FileSystem where
  anon : Bool
  endpoint_url : String
  key : String
  secret : String
  deriving DecidableEq, Repr

/-- Model of `CloudStorageFileReader.create_s3filesystem`: prefix the endpoint with
`"https://"` unless it already starts with `"https://"`, and pass `anon=False`
with the stored key and secret. -/
def create_s3filesystem (r : CloudStorageFileReader) : S3FileSystem :=
  let endpoint_url :=
    if startsWithL "https://".data r.endpoint.data then r.endpoint
    else "https://" ++ r.endpoint
  { anon := false
    endpoint_url := endpoint_url
    key := r.access_key_id
    secret := r.secret_access_key }

/-! ### `_get_epsg` / `_get_resolution` -/

/-- Loop body of `_get_epsg`: `if value.get("reference_system") is not None:
epsg = value.get("reference_system")`. -/
def epsgStep (epsg : Option Int) (kv : String × DimEntry) : Option Int :=
  match kv.2.reference_system with
  | some r => some r
  | none => epsg

/-- Model of `CloudStorageFileReader._get_epsg`: scan `cube:dimensions` values in insertion
order, keeping the most recent `reference_system`. -/
def get_epsg (item : Item) : Option Int :=
  item.cube_dimensions.foldl epsgStep none

/-- Loop body of `_get_resolution`: `if value.get("step") is not None:
resolution = float(np.abs(value.get("step")))`. -/
def resolutionStep (resolution : Option ℚ) (kv : String × DimEntry) : Option ℚ :=
  match kv.2.step with
  | some s => some |s|
  | none => resolution

/-- Model of `CloudStorageFileReader._get_resolution`: scan `cube:dimensions` values in
insertion order, keeping the absolute value of the most recent `step`. -/
def get_resolution (item : Item) : Option ℚ :=
  item.cube_dimensions.foldl resolutionStep none

/-- Modelled from the spec wording for comparison: the "last encountered" element
of a list of optional field values — `none` when no element carries the field. -/
def lastSome {α : Type} : List (Option α) → Option α
  | [] => none
  | o :: rest =>
    match lastSome rest with
    | some r => some r
    | none => o

/-! ### `_get_dimension_name` -/

/-- The `while i < len(dim_list) and not found` loop of `_get_dimension_name`:
both `if` bodies in the Python loop set the same key and the `found` flag, so the
loop returns the key of the first entry satisfying either condition. -/
def gdnLoop (axis dim_type : Option String) : List (String × DimEntry) → Option String
  | [] => none
  | kv :: rest =>
    let c1 : Bool :=
      match axis, kv.2.axis with
      | some a, some oa => oa == a
      | _, _ => false
    let c2 : Bool :=
      match dim_type, kv.2.type with
      | some t, some ot => ot == t
      | _, _ => false
    if c1 || c2 then some kv.1 else gdnLoop axis dim_type rest

/-- Model of `CloudStorageFileReader._get_dimension_name`: assert that at least one of
`axis` / `dim_type` is given, then scan `cube:dimensions` for the first match. -/
def get_dimension_name (item : Item) (axis dim_type : Option String) : Except String (Option String) :=
  if axis.isSome || dim_type.isSome then .ok (gdnLoop axis dim_type item.cube_dimensions)
  else .error "AssertionError"

/-- The first-match predicate of `_get_dimension_name`, for stating its
specification: entry matches a requested `axis` or a requested `dim_type`. -/
def dimMatches (axis dim_type : Option String) (v : DimEntry) : Bool :=
  (match axis, v.axis with
   | some a, some oa => oa == a
   | _, _ => false) ||
  (match dim_type, v.type with
   | some t, some ot => ot == t
   | _, _ => false)

/-! ### `get_extra_dimensions_filter` / `_filter_by_extra_dimensions` -/

/-- Python dict assignment `d[k] = v` on an insertion-ordered association list:
replace in place when the key exists, else append. -/
def dictInsert (l : List (String × PVal)) (k : String) (v : PVal) : List (String × PVal) :=
  if l.any (fun kv => kv.1 == k) then l.map (fun kv => if kv.1 = k then (k, v) else kv)
  else l ++ [(k, v)]

/-- The filter value a process-graph node contributes: `arguments["y"]` when
`arguments["x"]` is a `ParameterReference`, else `arguments["x"]`. -/
def nodeValue (node : PGNode) : PVal :=
  match node.arguments.x with
  | .paramRef => node.arguments.y
  | v => v

/-- Inner loop of `get_extra_dimensions_filter` over the nodes of one
`process_graph` dict: record `dimension_name → value` for `eq`/`=` nodes. -/
def extraFilterNodes (acc : List (String × PVal)) (dimension_name : String)
    (nodes : List (String × PGNode)) : List (String × PVal) :=
  nodes.foldl
    (fun a kv =>
      if kv.2.process_id = "eq" ∨ kv.2.process_id = "=" then dictInsert a dimension_name (nodeValue kv.2)
      else a)
    acc

/-- Outer loop of `get_extra_dimensions_filter` over the properties dict: keys
not starting with `"cube:dimensions"` are skipped; for the others the dimension
name is the second dot-separated field (`assert len(fields) >= 2`) and the
`process_graph` must be a dict (`assert isinstance(process_graph, dict)`). -/
def extraFilterGo : List (String × PropEntry) → List (String × PVal) → Except String (List (String × PVal))
  | [], acc => .ok acc
  | (name, entry) :: rest, acc =>
    if startsWithL "cube:dimensions".data name.data then
      match splitOnChar '.' name.data with
      | _ :: dimName :: _ =>
        match entry.process_graph with
        | .dict nodes => extraFilterGo rest (extraFilterNodes acc ⟨dimName⟩ nodes)
        | .nonDict => .error "Error! Unexpected type"
      | _ => .error "Error! Unexpected fields"
    else extraFilterGo rest acc

/-- Model of `CloudStorageFileReader.get_extra_dimensions_filter`: the empty dict unless
`self.properties` is a dict, else the bindings collected by the loop. -/
def get_extra_dimensions_filter (properties : Option PyProps) : Except String (List (String × PVal)) :=
  match properties with
  | some (.dict entries) => extraFilterGo entries []
  | _ => .ok []

/-- Outer loop of `_filter_by_extra_dimensions`: same traversal as
`get_extra_dimensions_filter`, but each `eq`/`=` node performs
`dataset.sel({dimension_name: [value]})` instead of recording a binding. -/
def filterGo : List (String × PropEntry) → Dataset → Except String Dataset
  | [], ds => .ok ds
  | (name, entry) :: rest, ds =>
    if startsWithL "cube:dimensions".data name.data then
      match splitOnChar '.' name.data with
      | _ :: dimName :: _ =>
        match entry.process_graph with
        | .dict nodes =>
          filterGo rest
            (nodes.foldl
              (fun d kv =>
                if kv.2.process_id = "eq" ∨ kv.2.process_id = "=" then d.sel ⟨dimName⟩ [nodeValue kv.2]
                else d)
              ds)
        | .nonDict => .error "Error! Unexpected type"
      | _ => .error "Error! Unexpected fields"
    else filterGo rest ds

/-- Model of `CloudStorageFileReader._filter_by_extra_dimensions`: the dataset unchanged
unless `self.properties` is a dict, else the narrowed dataset. -/
def filter_by_extra_dimensions (properties : Option PyProps) (dataset : Dataset) : Except String Dataset :=
  match properties with
  | some (.dict entries) => filterGo entries dataset
  | _ => .ok dataset

/-! ### `__init__` validation -/

/-- The temporal-extent checks of `__init__`: when the extent is given, its first
component must be a `datetime`, and when the second is not `None` it must be a
`datetime` not earlier than the first. -/
def checkTemporalExtent : Option (PyTime × PyTime) → Except String Unit
  | none => .ok ()
  | some (t0, t1) =>
    match t0 with
    | .dt a =>
      match t1 with
      | .noneV => .ok ()
      | .dt b => if a ≤ b then .ok () else .error "AssertionError: end precedes start"
      | .notDt => .error "AssertionError: end is not a datetime"
    | _ => .error "AssertionError: start is not a datetime"

/-- The validation sequence of `CloudStorageFileReader.__init__`, in source
order: `items` must be a list (`none` models a non-list argument) and non-empty;
`bbox` must have exactly 4 entries `west, south, east, north` with
`-180 <= west <= east <= 180` and `-90 <= south <= north <= 90`; the temporal
extent must validate; then the href of the first asset of the first item must
yield a bucket name (`next(iter(assets.values()))` raises on an empty assets
dict).  The external credential lookup is an injected collaborator and is not
modelled as failing. -/
def init_validate (items : Option (List Item)) (bbox : List ℚ)
    (temporal_extent : Option (PyTime × PyTime)) : Except String Unit :=
  match items with
  | none => .error "AssertionError: items is not a list"
  | some its =>
    match its with
    | [] => .error "AssertionError: items is empty"
    | it :: _ =>
      match bbox with
      | [west, south, east, north] =>
        if -180 ≤ west ∧ west ≤ east ∧ east ≤ 180 then
          if -90 ≤ south ∧ south ≤ north ∧ north ≤ 90 then
            match checkTemporalExtent temporal_extent with
            | .error msg => .error msg
            | .ok _ =>
              match it.assets with
              | [] => .error "StopIteration: empty assets"
              | kv :: _ =>
                match extract_bucket_name_from_url kv.2.href with
                | .ok _ => .ok ()
                | .error msg => .error msg
          else .error "AssertionError: invalid south or north"
        else .error "AssertionError: invalid west or east"
      | _ => .error "AssertionError: invalid bbox size"

/-- Validity of the item-list argument as far as `__init__` exercises it: a
non-empty list whose first item has an asset with a bucket-extractable href. -/
def itemsOK : Option (List Item) → Bool
  | some (it :: _) =>
    match it.assets with
    | kv :: _ => isOkE (extract_bucket_name_from_url kv.2.href)
    | [] => false
  | _ => false

/-- Validity of the temporal extent per the `__init__` asserts. -/
def teOK : Option (PyTime × PyTime) → Bool
  | none => true
  | some (.dt _, .noneV) => true
  | some (.dt a, .dt b) => a ≤ b
  | _ => false

/-! ### Concrete test data -/

/-- An item with two dimensions carrying `step` and `reference_system` (first:
step 2, EPSG 4326; second: step -3, EPSG 3857) and a third carrying neither. -/
def itemTwoSteps : Item :=
  { assets := []
    cube_dimensions :=
      [("x", { axis := some "x", type := some "spatial", step := some 2, reference_system := some 4326 }),
       ("y", { axis := some "y", type := some "spatial", step := some (-3), reference_system := some 3857 }),
       ("t", { axis := none, type := some "temporal", step := none, reference_system := none })] }

/-- An item whose dimensions carry neither `step` nor `reference_system`. -/
def itemNoSteps : Item :=
  { assets := []
    cube_dimensions := [("b", { axis := none, type := none, step := none, reference_system := none })] }

/-- The spec's `cube:dimensions` example
`{"x": {"axis":"x"}, "time": {"type":"temporal"}}`. -/
def itemAxes : Item :=
  { assets := []
    cube_dimensions :=
      [("x", { axis := some "x", type := none, step := none, reference_system := none }),
       ("time", { axis := none, type := some "temporal", step := none, reference_system := none })] }

/-- An item whose first asset has an s3 href from which a bucket can be
extracted, as `__init__` requires. -/
def itemWithAsset : Item :=
  { assets := [("data", { href := "s3://bucket1/path/to/obj" })]
    cube_dimensions := [] }

/-- A reader whose stored endpoint already carries an `http` scheme. -/
def readerHttp : CloudStorageFileReader :=
  { endpoint_raw := "http://example.com"
    access_key_id := "k"
    secret_access_key := "s"
    properties := none }

/-- A small concrete dataset. -/
def dsEx : Dataset := ⟨[("level", [.pInt 100, .pInt 200])]⟩

end CloudStorage

namespace CloudStorage

/-! ### Helper lemmas -/

theorem foldl_epsgStep (l : List (String × DimEntry)) (acc : Option Int) :
    l.foldl epsgStep acc =
      match lastSome (l.map (fun kv => kv.2.reference_system)) with
      | some r => some r
      | none => acc := by
  induction l generalizing acc with
  | nil => rfl
  | cons hd tl ih =>
    simp only [List.foldl_cons, List.map_cons, lastSome]
    rw [ih]
    cases h : lastSome (tl.map fun kv => kv.2.reference_system) with
    | some r => rfl
    | none => cases hr : hd.2.reference_system <;> simp [epsgStep, hr]

theorem foldl_resolutionStep (l : List (String × DimEntry)) (acc : Option ℚ) :
    l.foldl resolutionStep acc =
      match lastSome (l.map (fun kv => kv.2.step.map (fun q => |q|))) with
      | some r => some r
      | none => acc := by
  induction l generalizing acc with
  | nil => rfl
  | cons hd tl ih =>
    simp only [List.foldl_cons, List.map_cons, lastSome]
    rw [ih]
    cases h : lastSome (tl.map fun kv => kv.2.step.map (fun q => |q|)) with
    | some r => rfl
    | none => cases hs : hd.2.step <;> simp [resolutionStep, hs]

theorem gdnLoop_eq_find (axis dim_type : Option String) (l : List (String × DimEntry)) :
    gdnLoop axis dim_type l = (l.find? (fun kv => dimMatches axis dim_type kv.2)).map Prod.fst := by
  induction l with
  | nil => rfl
  | cons hd tl ih =>
    show (if dimMatches axis dim_type hd.2 then some hd.1 else gdnLoop axis dim_type tl) = _
    cases h : dimMatches axis dim_type hd.2 with
    | true => simp [List.find?, h]
    | false => simp [List.find?, h, ih]

theorem findCharIdx_append_not_mem (c : Char) (seg rest : List Char) (h : c ∉ seg) :
    findCharIdx c (seg ++ c :: rest) = some seg.length := by
  induction seg with
  | nil => simp [findCharIdx]
  | cons a as ih =>
    have ha : ¬a = c := fun e => h (e ▸ List.mem_cons_self a as)
    have ih' := ih (fun hm => h (List.mem_cons_of_mem a hm))
    simp [findCharIdx, ha, ih']

theorem findCharIdx_eq_none (c : Char) (l : List Char) :
    findCharIdx c l = none ↔ c ∉ l := by
  induction l with
  | nil => simp [findCharIdx]
  | cons a as ih =>
    simp only [findCharIdx, List.mem_cons]
    by_cases ha : a = c
    · simp [ha]
    · rw [if_neg ha]
      rcases h : findCharIdx c as with _ | i
      · simp only [h]
        constructor
        · intro _ hor
          rcases hor with e | hm
          · exact ha e.symm
          · exact (ih.mp h) hm
        · intro _
          trivial
      · simp only [h]
        constructor
        · intro hcontra
          exact absurd hcontra (by simp)
        · intro hnot
          exfalso
          apply hnot
          right
          by_contra hc
          rw [ih.mpr hc] at h
          cases h

theorem takeWhile_all_append {α : Type} (p : α → Bool) (l1 l2 : List α) (b : α)
    (h1 : ∀ a ∈ l1, p a = true) (hb : p b = false) :
    (l1 ++ b :: l2).takeWhile p = l1 := by
  induction l1 with
  | nil => simp [List.takeWhile, hb]
  | cons a as ih =>
    have ha := h1 a (List.mem_cons_self a as)
    have ih' := ih (fun x hx => h1 x (List.mem_cons_of_mem a hx))
    simp [List.takeWhile, ha, ih']

theorem dropWhile_all_append {α : Type} (p : α → Bool) (l1 l2 : List α) (b : α)
    (h1 : ∀ a ∈ l1, p a = true) (hb : p b = false) :
    (l1 ++ b :: l2).dropWhile p = b :: l2 := by
  induction l1 with
  | nil => simp [List.dropWhile, hb]
  | cons a as ih =>
    have ha := h1 a (List.mem_cons_self a as)
    have ih' := ih (fun x hx => h1 x (List.mem_cons_of_mem a hx))
    simp [List.dropWhile, ha, ih']

theorem splitSchemeRest_https (tail : List Char) :
    splitSchemeRest ('h' :: 't' :: 't' :: 'p' :: 's' :: ':' :: '/' :: '/' :: tail) =
      some (['h', 't', 't', 'p', 's'], tail) := rfl

theorem urlparse_https (host rest : List Char) (h : '/' ∉ host) :
    urlparse ('h' :: 't' :: 't' :: 'p' :: 's' :: ':' :: '/' :: '/' :: (host ++ '/' :: rest)) =
      { scheme := ['h', 't', 't', 'p', 's'], netloc := host, path := '/' :: rest } := by
  simp only [urlparse, splitSchemeRest_https]
  have h1 : ∀ a ∈ host, (decide (a ≠ '/')) = true := by
    intro a ha
    simp only [decide_eq_true_eq]
    exact fun e => h (e ▸ ha)
  have hb : (decide (('/' : Char) ≠ '/')) = false := by decide
  rw [takeWhile_all_append _ _ _ _ h1 hb, dropWhile_all_append _ _ _ _ h1 hb]
  have hmap : (['h', 't', 't', 'p', 's'] : List Char).map Char.toLower = ['h', 't', 't', 'p', 's'] := by decide
  rw [hmap]

theorem bucketFromPath_segment (seg rest : List Char) (hne : seg ≠ []) (h : '/' ∉ seg) :
    bucketFromPath ('/' :: (seg ++ '/' :: rest)) = .ok ⟨seg⟩ := by
  have hfind : findIdxFrom ('/' :: (seg ++ '/' :: rest)) '/' 1 = some (1 + seg.length) := by
    rw [findIdxFrom]
    rw [show ('/' :: (seg ++ '/' :: rest)).drop 1 = seg ++ '/' :: rest from rfl]
    rw [findCharIdx_append_not_mem _ _ _ h]
  have hlen : 0 < seg.length := List.length_pos.mpr hne
  simp only [bucketFromPath, hfind]
  rw [if_pos (by omega)]
  have htake : ('/' :: (seg ++ '/' :: rest)).take (1 + seg.length) = '/' :: seg := by
    rw [Nat.add_comm, List.take_succ_cons]
    congr 1
    exact List.take_left seg ('/' :: rest)
  rw [htake]
  rfl

theorem bucketFromPath_err (path : List Char) (h : '/' ∉ path.drop 1) :
    isErrE (bucketFromPath path) = true := by
  rw [bucketFromPath, findIdxFrom, (findCharIdx_eq_none _ _).mpr h]
  rfl

theorem startsWith_http_lower (l : List Char) :
    startsWithL "http".data (('h' :: 't' :: 't' :: 'p' :: l).map Char.toLower) = true := by
  show startsWithL ['h', 't', 't', 'p'] _ = true
  simp [List.map_cons, startsWithL]

theorem extract_bucket_hostname (url : String) (h : List Char)
    (hsch : (urlparse url.data).scheme = "s3".data)
    (hh : hostname (urlparse url.data) = some h) :
    extract_bucket_name_from_url url = .ok ⟨h⟩ := by
  simp [extract_bucket_name_from_url, hsch, hh]

theorem extract_bucket_not_s3 (url : String)
    (hsch : (urlparse url.data).scheme ≠ "s3".data) :
    extract_bucket_name_from_url url = bucketFromPath (urlparse url.data).path := by
  simp [extract_bucket_name_from_url, hsch]

theorem get_object_segment (url : String) (seg rest : List Char)
    (hpath : (urlparse url.data).path = '/' :: (seg ++ '/' :: rest))
    (h : '/' ∉ seg) :
    get_object url = .ok ⟨rest⟩ := by
  have hfind : findIdxFrom (urlparse url.data).path '/' 1 = some (1 + seg.length) := by
    rw [hpath, findIdxFrom]
    rw [show ('/' :: (seg ++ '/' :: rest)).drop 1 = seg ++ '/' :: rest from rfl]
    rw [findCharIdx_append_not_mem _ _ _ h]
  simp only [get_object, hfind]
  rw [hpath]
  have hdrop : ('/' :: (seg ++ '/' :: rest)).drop (1 + seg.length + 1) = rest := by
    rw [show 1 + seg.length + 1 = (seg.length + 1) + 1 by omega, List.drop_succ_cons]
    rw [show seg ++ '/' :: rest = (seg ++ ['/']) ++ rest by simp]
    rw [show seg.length + 1 = (seg ++ ['/']).length by simp]
    exact List.drop_left (seg ++ ['/']) rest
  rw [hdrop]

theorem get_object_ok_iff (url : String) :
    isOkE (get_object url) = true ↔ '/' ∈ (urlparse url.data).path.drop 1 := by
  rcases hf : findCharIdx '/' ((urlparse url.data).path.drop 1) with _ | i
  · have hfi : findIdxFrom (urlparse url.data).path '/' 1 = none := by
      rw [findIdxFrom, hf]
    simp only [get_object, hfi, isErrE, isOkE]
    have hnm := (findCharIdx_eq_none _ _).mp hf
    rw [List.drop_one] at hnm
    simp [hnm]
  · have hfi : findIdxFrom (urlparse url.data).path '/' 1 = some (1 + i) := by
      rw [findIdxFrom, hf]
    simp only [get_object, hfi, isOkE]
    simp only [true_iff]
    by_contra hc
    rw [(findCharIdx_eq_none _ _).mpr hc] at hf
    cases hf

theorem teOK_ok (te : Option (PyTime × PyTime)) (h : teOK te = true) :
    checkTemporalExtent te = .ok () := by
  rcases te with _ | ⟨t0, t1⟩
  · rfl
  · rcases t0 with a | _ | _ <;> rcases t1 with b | _ | _ <;>
      simp_all [teOK, checkTemporalExtent]

theorem checkTemporal_err (te : Option (PyTime × PyTime)) (h : teOK te = false) :
    isErrE (checkTemporalExtent te) = true := by
  rcases te with _ | ⟨t0, t1⟩
  · simp [teOK] at h
  · rcases t0 with a | _ | _ <;> rcases t1 with b | _ | _ <;>
      simp_all [teOK, checkTemporalExtent, isErrE]
    rw [if_neg (not_le.mpr h)]

theorem init_te_err (items : Option (List Item)) (bbox : List ℚ)
    (te : Option (PyTime × PyTime)) (h : isErrE (checkTemporalExtent te) = true) :
    isErrE (init_validate items bbox te) = true := by
  rcases items with _ | its
  · rfl
  rcases its with _ | ⟨it, rest⟩
  · rfl
  rcases bbox with _ | ⟨w, _ | ⟨s, _ | ⟨e, _ | ⟨n, _ | ⟨x5, tl⟩⟩⟩⟩⟩
  · rfl
  · rfl
  · rfl
  · rfl
  · simp only [init_validate]
    by_cases h1 : -180 ≤ w ∧ w ≤ e ∧ e ≤ 180
    · rw [if_pos h1]
      by_cases h2 : -90 ≤ s ∧ s ≤ n ∧ n ≤ 90
      · rw [if_pos h2]
        rcases hc : checkTemporalExtent te with msg | u
        · rfl
        · rw [hc] at h
          simp [isErrE] at h
      · rw [if_neg h2]
        rfl
    · rw [if_neg h1]
      rfl
  · rfl

end CloudStorage

namespace CloudStorage

example : extract_bucket_name_from_url "s3://bucket1/path/to/obj" = .ok "bucket1" := rfl

example : extract_bucket_name_from_url "https://host/bucket2/obj" = .ok "bucket2" := rfl

example : convert_https_to_s3 "https://host/bucket2/path/obj.tif" = .ok "s3://bucket2/path/obj.tif" := rfl

example : isErrE (get_object "s3://bucket1/obj") = true := by decide

example : isOkE (extract_bucket_name_from_url "s3://bucket1/obj") = true := by decide

example : isOkE (get_object "https://host//x") = true := by decide

example : isErrE (extract_bucket_name_from_url "https://host//x") = true := by decide

/-! ### Claim theorems -/

/-- C1: for every STAC item, `get_epsg` returns the `reference_system` of the last
`cube:dimensions` entry (in insertion order) carrying one, and `get_resolution`
the absolute value of the `step` of the last entry carrying one; entries lacking
the field are skipped and `none` results when no entry carries it
(`lastSome` is exactly "the last encountered field value, if any").  On an item
whose two step-carrying entries have steps 2 and -3 and reference systems 4326
and 3857, the results are 3857 and 3 — the last entry, not the first. -/
theorem claim_c1_get_epsg_resolution_last :
    (∀ item : Item,
      get_epsg item = lastSome (item.cube_dimensions.map (fun kv => kv.2.reference_system)) ∧
      get_resolution item = lastSome (item.cube_dimensions.map (fun kv => kv.2.step.map (fun q => |q|)))) ∧
    get_epsg itemTwoSteps = some 3857 ∧
    get_resolution itemTwoSteps = some 3 ∧
    get_epsg itemNoSteps = none ∧
    get_resolution itemNoSteps = none := by
  refine ⟨fun item => ⟨?_, ?_⟩, by decide, by decide, by decide, by decide⟩
  · rw [get_epsg, foldl_epsgStep]
    cases lastSome (item.cube_dimensions.map fun kv => kv.2.reference_system) <;> rfl
  · rw [get_resolution, foldl_resolutionStep]
    cases lastSome (item.cube_dimensions.map fun kv => kv.2.step.map (fun q => |q|)) <;> rfl

/-- C4: `extract_bucket_name_from_url` returns the hostname for an `s3`-scheme
URL, and otherwise the first path segment after the leading slash (failing when
the path holds no separator after position 0); on the spec's examples it returns
`"bucket1"` and `"bucket2"`. -/
theorem claim_c4_extract_bucket :
    (∀ (url : String) (h : List Char),
      (urlparse url.data).scheme = "s3".data → hostname (urlparse url.data) = some h →
      extract_bucket_name_from_url url = .ok ⟨h⟩) ∧
    (∀ (url : String) (seg rest : List Char),
      (urlparse url.data).scheme ≠ "s3".data →
      (urlparse url.data).path = '/' :: (seg ++ '/' :: rest) → seg ≠ [] → '/' ∉ seg →
      extract_bucket_name_from_url url = .ok ⟨seg⟩) ∧
    (∀ url : String,
      (urlparse url.data).scheme ≠ "s3".data → '/' ∉ (urlparse url.data).path.drop 1 →
      isErrE (extract_bucket_name_from_url url) = true) ∧
    extract_bucket_name_from_url "s3://bucket1/path/to/obj" = .ok "bucket1" ∧
    extract_bucket_name_from_url "https://host/bucket2/obj" = .ok "bucket2" := by
  refine ⟨?_, ?_, ?_, rfl, rfl⟩
  · intro url h hsch hh
    exact extract_bucket_hostname url h hsch hh
  · intro url seg rest hsch hpath hne hnm
    rw [extract_bucket_not_s3 url hsch, hpath]
    exact bucketFromPath_segment seg rest hne hnm
  · intro url hsch hmem
    rw [extract_bucket_not_s3 url hsch]
    exact bucketFromPath_err _ hmem

/-- C4 witness: the first conjunct of `claim_c4_extract_bucket` applied to the
URL `"s3://bucket1/path/to/obj"`. -/
theorem claim_c4_witness :
    (urlparse "s3://bucket1/path/to/obj".data).scheme = "s3".data ∧
    hostname (urlparse "s3://bucket1/path/to/obj".data) = some "bucket1".data ∧
    extract_bucket_name_from_url "s3://bucket1/path/to/obj" = .ok ⟨"bucket1".data⟩ :=
  ⟨by decide, by decide,
   claim_c4_extract_bucket.1 "s3://bucket1/path/to/obj" "bucket1".data (by decide) (by decide)⟩

/-- C5: `get_dimension_name` scans `cube:dimensions` in insertion order and
returns the first key whose `axis` matches the requested axis or whose `type`
matches the requested dimension type; `none` when no entry matches; an error when
neither criterion is supplied.  On the spec's example item it returns `"x"` for
`axis="x"` and `"time"` for `dim_type="temporal"`. -/
theorem claim_c5_get_dimension_name :
    (∀ (item : Item) (axis dim_type : Option String),
      axis.isSome ∨ dim_type.isSome →
      get_dimension_name item axis dim_type =
        .ok ((item.cube_dimensions.find? (fun kv => dimMatches axis dim_type kv.2)).map Prod.fst)) ∧
    (∀ item : Item, isErrE (get_dimension_name item none none) = true) ∧
    get_dimension_name itemAxes (some "x") none = .ok (some "x") ∧
    get_dimension_name itemAxes none (some "temporal") = .ok (some "time") ∧
    get_dimension_name itemAxes (some "z") (some "nope") = .ok none := by
  refine ⟨?_, fun item => rfl, rfl, rfl, rfl⟩
  intro item axis dim_type h
  have hb : (axis.isSome || dim_type.isSome) = true := by
    rcases h with h | h <;> simp [h]
  simp [get_dimension_name, hb, gdnLoop_eq_find]

/-- C5 witness: `claim_c5_get_dimension_name` applied to the example item with
`axis="x"`. -/
theorem claim_c5_witness :
    ((some "x" : Option String).isSome ∨ (none : Option String).isSome) ∧
    get_dimension_name itemAxes (some "x") none =
      .ok ((itemAxes.cube_dimensions.find? (fun kv => dimMatches (some "x") none kv.2)).map Prod.fst) :=
  ⟨Or.inl rfl, claim_c5_get_dimension_name.1 itemAxes (some "x") none (Or.inl rfl)⟩

/-- C7: for an https URL whose path is `/<bucket>/<object>`, `convert_https_to_s3`
returns `"s3://" ++ bucket ++ "/" ++ object`; in particular the spec's example. -/
theorem claim_c7_convert_https_to_s3 :
    (∀ host bucket obj : List Char,
      '/' ∉ host → bucket ≠ [] → '/' ∉ bucket →
      convert_https_to_s3
          ⟨'h' :: 't' :: 't' :: 'p' :: 's' :: ':' :: '/' :: '/' ::
            (host ++ '/' :: (bucket ++ '/' :: obj))⟩ =
        .ok ("s3://" ++ (⟨bucket⟩ : String) ++ "/" ++ (⟨obj⟩ : String))) ∧
    convert_https_to_s3 "https://host/bucket2/path/obj.tif" = .ok "s3://bucket2/path/obj.tif" := by
  refine ⟨?_, rfl⟩
  intro host bucket obj hh hbne hbnm
  have hu : urlparse (('h' :: 't' :: 't' :: 'p' :: 's' :: ':' :: '/' :: '/' ::
      (host ++ '/' :: (bucket ++ '/' :: obj)))) =
      { scheme := ['h', 't', 't', 'p', 's'], netloc := host, path := '/' :: (bucket ++ '/' :: obj) } :=
    urlparse_https host (bucket ++ '/' :: obj) hh
  have hstart : startsWithL "http".data
      (pyLower ⟨'h' :: 't' :: 't' :: 'p' :: 's' :: ':' :: '/' :: '/' ::
        (host ++ '/' :: (bucket ++ '/' :: obj))⟩).data = true :=
    startsWith_http_lower _
  have hsch : (urlparse (⟨'h' :: 't' :: 't' :: 'p' :: 's' :: ':' :: '/' :: '/' ::
      (host ++ '/' :: (bucket ++ '/' :: obj))⟩ : String).data).scheme ≠ "s3".data := by
    rw [show ((⟨'h' :: 't' :: 't' :: 'p' :: 's' :: ':' :: '/' :: '/' ::
      (host ++ '/' :: (bucket ++ '/' :: obj))⟩ : String)).data =
      'h' :: 't' :: 't' :: 'p' :: 's' :: ':' :: '/' :: '/' ::
      (host ++ '/' :: (bucket ++ '/' :: obj)) from rfl, hu]
    show (['h', 't', 't', 'p', 's'] : List Char) ≠ "s3".data
    decide
  have hbucket : extract_bucket_name_from_url
      ⟨'h' :: 't' :: 't' :: 'p' :: 's' :: ':' :: '/' :: '/' ::
        (host ++ '/' :: (bucket ++ '/' :: obj))⟩ = .ok ⟨bucket⟩ := by
    rw [extract_bucket_not_s3 _ hsch]
    rw [show ((⟨'h' :: 't' :: 't' :: 'p' :: 's' :: ':' :: '/' :: '/' ::
      (host ++ '/' :: (bucket ++ '/' :: obj))⟩ : String)).data =
      'h' :: 't' :: 't' :: 'p' :: 's' :: ':' :: '/' :: '/' ::
      (host ++ '/' :: (bucket ++ '/' :: obj)) from rfl, hu]
    exact bucketFromPath_segment bucket obj hbne hbnm
  have hobj : get_object
      ⟨'h' :: 't' :: 't' :: 'p' :: 's' :: ':' :: '/' :: '/' ::
        (host ++ '/' :: (bucket ++ '/' :: obj))⟩ = .ok ⟨obj⟩ := by
    apply get_object_segment _ bucket obj _ hbnm
    rw [show ((⟨'h' :: 't' :: 't' :: 'p' :: 's' :: ':' :: '/' :: '/' ::
      (host ++ '/' :: (bucket ++ '/' :: obj))⟩ : String)).data =
      'h' :: 't' :: 't' :: 'p' :: 's' :: ':' :: '/' :: '/' ::
      (host ++ '/' :: (bucket ++ '/' :: obj)) from rfl, hu]
  simp [convert_https_to_s3, hstart, hbucket, hobj]

/-- C7 witness: `claim_c7_convert_https_to_s3` applied to host `"host"`, bucket
`"bucket2"`, object `"path/obj.tif"`. -/
theorem claim_c7_witness :
    ('/' ∉ "host".data ∧ "bucket2".data ≠ [] ∧ '/' ∉ "bucket2".data) ∧
    convert_https_to_s3
        ⟨'h' :: 't' :: 't' :: 'p' :: 's' :: ':' :: '/' :: '/' ::
          ("host".data ++ '/' :: ("bucket2".data ++ '/' :: "path/obj.tif".data))⟩ =
      .ok ("s3://" ++ (⟨"bucket2".data⟩ : String) ++ "/" ++ (⟨"path/obj.tif".data⟩ : String)) :=
  ⟨⟨by decide, by decide, by decide⟩,
   claim_c7_convert_https_to_s3.1 "host".data "bucket2".data "path/obj.tif".data
     (by decide) (by decide) (by decide)⟩

/-- C8 counterexample: the claim says `get_object` fails under the same condition
as `extract_bucket_name_from_url`, but on `"s3://bucket1/obj"` the bucket
extraction succeeds while `get_object` raises, and on `"https://host//x"`
`get_object` succeeds while the bucket extraction raises. -/
theorem claim_c8_counterexample :
    isOkE (extract_bucket_name_from_url "s3://bucket1/obj") = true ∧
    isErrE (get_object "s3://bucket1/obj") = true ∧
    isOkE (get_object "https://host//x") = true ∧
    isErrE (extract_bucket_name_from_url "https://host//x") = true := by
  exact ⟨by decide, by decide, by decide, by decide⟩

/-- C8 (amended): `get_object` returns the path remainder after the first `/` at
path position ≥ 1, and succeeds exactly when such a separator exists — a
condition that is not the same as `extract_bucket_name_from_url`'s (see the
counterexample). -/
theorem claim_c8_get_object :
    (∀ (url : String) (seg rest : List Char),
      (urlparse url.data).path = '/' :: (seg ++ '/' :: rest) → '/' ∉ seg →
      get_object url = .ok ⟨rest⟩) ∧
    (∀ url : String, isOkE (get_object url) = true ↔ '/' ∈ (urlparse url.data).path.drop 1) :=
  ⟨fun url seg rest hp h => get_object_segment url seg rest hp h, get_object_ok_iff⟩

/-- C8 witness: `claim_c8_get_object` applied to `"https://host/bucket2/obj"`. -/
theorem claim_c8_witness :
    (urlparse "https://host/bucket2/obj".data).path = '/' :: ("bucket2".data ++ '/' :: "obj".data) ∧
    '/' ∉ "bucket2".data ∧
    get_object "https://host/bucket2/obj" = .ok ⟨"obj".data⟩ :=
  ⟨by decide, by decide,
   claim_c8_get_object.1 "https://host/bucket2/obj" "bucket2".data "obj".data (by decide) (by decide)⟩

/-- C2: with valid items and temporal extent, construction succeeds iff the bbox
`(w, s, e, n)` satisfies `-180 ≤ w ≤ e ≤ 180` and `-90 ≤ s ≤ n ≤ 90`; any bbox
that is not a 4-tuple always fails. -/
theorem claim_c2_bbox_validation :
    (∀ (items : Option (List Item)) (te : Option (PyTime × PyTime)) (w s e n : ℚ),
      itemsOK items = true → teOK te = true →
      (init_validate items [w, s, e, n] te = .ok () ↔
        (-180 ≤ w ∧ w ≤ e ∧ e ≤ 180 ∧ -90 ≤ s ∧ s ≤ n ∧ n ≤ 90))) ∧
    (∀ (items : Option (List Item)) (te : Option (PyTime × PyTime)) (l : List ℚ),
      l.length ≠ 4 → isErrE (init_validate items l te) = true) := by
  constructor
  · intro items te w s e n hitems hte
    rcases items with _ | its
    · simp [itemsOK] at hitems
    rcases its with _ | ⟨it, rest⟩
    · simp [itemsOK] at hitems
    rcases hassets : it.assets with _ | ⟨kv, arest⟩
    · simp [itemsOK, hassets] at hitems
    simp only [itemsOK, hassets] at hitems
    rcases hex : extract_bucket_name_from_url kv.2.href with msg | b
    · rw [hex] at hitems
      simp [isOkE] at hitems
    have hck := teOK_ok te hte
    simp only [init_validate, hck, hassets, hex]
    by_cases h1 : -180 ≤ w ∧ w ≤ e ∧ e ≤ 180
    · by_cases h2 : -90 ≤ s ∧ s ≤ n ∧ n ≤ 90
      · rw [if_pos h1, if_pos h2]
        constructor
        · intro _
          exact ⟨h1.1, h1.2.1, h1.2.2, h2.1, h2.2.1, h2.2.2⟩
        · intro _
          rfl
      · rw [if_pos h1, if_neg h2]
        constructor
        · intro hcontra
          cases hcontra
        · intro hc
          exact absurd ⟨hc.2.2.2.1, hc.2.2.2.2.1, hc.2.2.2.2.2⟩ h2
    · rw [if_neg h1]
      constructor
      · intro hcontra
        cases hcontra
      · intro hc
        exact absurd ⟨hc.1, hc.2.1, hc.2.2.1⟩ h1
  · intro items te l hlen
    rcases items with _ | its
    · rfl
    rcases its with _ | ⟨it, rest⟩
    · rfl
    rcases l with _ | ⟨a, _ | ⟨b, _ | ⟨c, _ | ⟨d, _ | ⟨x5, tl⟩⟩⟩⟩⟩
    · rfl
    · rfl
    · rfl
    · rfl
    · exact absurd rfl hlen
    · rfl

/-- C2 witness: `claim_c2_bbox_validation` applied to a valid single-item list,
no temporal extent, and bbox `(-10, -5, 10, 5)`. -/
theorem claim_c2_witness :
    (itemsOK (some [itemWithAsset]) = true ∧ teOK none = true) ∧
    (init_validate (some [itemWithAsset]) [(-10 : ℚ), -5, 10, 5] none = .ok () ↔
      (-180 ≤ (-10 : ℚ) ∧ (-10 : ℚ) ≤ 10 ∧ (10 : ℚ) ≤ 180 ∧
       -90 ≤ (-5 : ℚ) ∧ (-5 : ℚ) ≤ 5 ∧ (5 : ℚ) ≤ 90)) :=
  ⟨⟨by decide, rfl⟩,
   claim_c2_bbox_validation.1 (some [itemWithAsset]) none (-10) (-5) 10 5 (by decide) rfl⟩

/-- C6: construction fails when `items` is not a list or is empty; when the
temporal extent's start is `None` or not a `datetime`; and when both endpoints
are `datetime`s with the end before the start. -/
theorem claim_c6_init_failures :
    (∀ (bbox : List ℚ) (te : Option (PyTime × PyTime)),
      isErrE (init_validate none bbox te) = true) ∧
    (∀ (bbox : List ℚ) (te : Option (PyTime × PyTime)),
      isErrE (init_validate (some []) bbox te) = true) ∧
    (∀ (items : Option (List Item)) (bbox : List ℚ) (t1 : PyTime),
      isErrE (init_validate items bbox (some (.noneV, t1))) = true) ∧
    (∀ (items : Option (List Item)) (bbox : List ℚ) (t1 : PyTime),
      isErrE (init_validate items bbox (some (.notDt, t1))) = true) ∧
    (∀ (items : Option (List Item)) (bbox : List ℚ) (a b : Int),
      b < a → isErrE (init_validate items bbox (some (.dt a, .dt b))) = true) := by
  refine ⟨fun bbox te => rfl, fun bbox te => rfl, ?_, ?_, ?_⟩
  · intro items bbox t1
    exact init_te_err items bbox _ (by cases t1 <;> rfl)
  · intro items bbox t1
    exact init_te_err items bbox _ (by cases t1 <;> rfl)
  · intro items bbox a b hba
    apply init_te_err items bbox
    show isErrE (if a ≤ b then Except.ok () else Except.error "AssertionError: end precedes start") = true
    rw [if_neg (not_le.mpr hba)]
    rfl

/-- C6 witness: `claim_c6_init_failures`'s last conjunct applied to start 1,
end 0. -/
theorem claim_c6_witness :
    (0 : Int) < 1 ∧
    isErrE (init_validate (some [itemWithAsset]) [0, 0, 10, 10] (some (.dt 1, .dt 0))) = true :=
  ⟨by decide, claim_c6_init_failures.2.2.2.2 (some [itemWithAsset]) [0, 0, 10, 10] 1 0 (by decide)⟩

/-- C3: `get_extra_dimensions_filter` skips keys not starting with
`"cube:dimensions"`; for a key `"cube:dimensions.level.process_graph"` a node
binds `"level"` to the `y` argument when `x` is a `ParameterReference` and to the
`x` argument otherwise (`nodeValue`), and only when `process_id` is `"eq"` or
`"="`; in particular the spec's example yields `{"level": 100}`. -/
theorem claim_c3_extra_dimensions_filter :
    (∀ (name : String) (entry : PropEntry) (rest : List (String × PropEntry)),
      startsWithL "cube:dimensions".data name.data = false →
      get_extra_dimensions_filter (some (.dict ((name, entry) :: rest))) =
        get_extra_dimensions_filter (some (.dict rest))) ∧
    (∀ (pid : String) (x y : PVal),
      get_extra_dimensions_filter (some (.dict
        [("cube:dimensions.level.process_graph",
          { process_graph := .dict
              [("node1", { process_id := pid, arguments := { x := x, y := y } })] })])) =
        .ok (if pid = "eq" ∨ pid = "=" then
              [("level", nodeValue { process_id := pid, arguments := { x := x, y := y } })]
             else [])) ∧
    get_extra_dimensions_filter (some (.dict
      [("cube:dimensions.level.process_graph",
        { process_graph := .dict
            [("node1", { process_id := "eq", arguments := { x := .paramRef, y := .pInt 100 } })] })])) =
      .ok [("level", .pInt 100)] := by
  refine ⟨?_, ?_, rfl⟩
  · intro name entry rest h
    simp [get_extra_dimensions_filter, extraFilterGo, h]
  · intro pid x y
    have hstart : startsWithL "cube:dimensions".data
        "cube:dimensions.level.process_graph".data = true := by decide
    have hsplit : splitOnChar '.' "cube:dimensions.level.process_graph".data =
        ["cube:dimensions".data, "level".data, "process_graph".data] := by decide
    have hlev : (⟨"level".data⟩ : String) = "level" := rfl
    simp only [get_extra_dimensions_filter, extraFilterGo, hstart, hsplit, hlev, if_true,
      extraFilterNodes, List.foldl]
    by_cases h : pid = "eq" ∨ pid = "="
    · rw [if_pos h, if_pos h]
      rfl
    · rw [if_neg h, if_neg h]

/-- C3 witness: the skip conjunct of `claim_c3_extra_dimensions_filter` applied
to a key that does not start with `"cube:dimensions"`. -/
theorem claim_c3_witness :
    startsWithL "cube:dimensions".data "other_property".data = false ∧
    get_extra_dimensions_filter (some (.dict [("other_property", { process_graph := .nonDict })])) =
      get_extra_dimensions_filter (some (.dict [])) :=
  ⟨by decide,
   claim_c3_extra_dimensions_filter.1 "other_property" { process_graph := .nonDict } [] (by decide)⟩

/-- C9 counterexample: the stored endpoint `"http://example.com"` carries a
scheme, yet `create_s3filesystem` does not leave it unchanged — it prefixes
`"https://"` anyway, because the code only tests for the literal prefix
`"https://"`. -/
theorem claim_c9_counterexample :
    (urlparse "http://example.com".data).scheme ≠ [] ∧
    (create_s3filesystem readerHttp).endpoint_url ≠ readerHttp.endpoint_raw ∧
    (create_s3filesystem readerHttp).endpoint_url = "https://http://example.com" := by
  exact ⟨by decide, by decide, by decide⟩

/-- C9 (amended): `create_s3filesystem` passes `anon=False` and the stored key
and secret, and the endpoint URL is the lowercased stored endpoint, prefixed with
`"https://"` exactly when the lowercased endpoint does not already start with
`"https://"` (not: "when no scheme is given"). -/
theorem claim_c9_create_s3filesystem :
    ∀ r : CloudStorageFileReader,
      (create_s3filesystem r).anon = false ∧
      (create_s3filesystem r).key = r.access_key_id ∧
      (create_s3filesystem r).secret = r.secret_access_key ∧
      (startsWithL "https://".data (pyLower r.endpoint_raw).data = true →
        (create_s3filesystem r).endpoint_url = pyLower r.endpoint_raw) ∧
      (startsWithL "https://".data (pyLower r.endpoint_raw).data = false →
        (create_s3filesystem r).endpoint_url = "https://" ++ pyLower r.endpoint_raw) := by
  intro r
  refine ⟨rfl, rfl, rfl, ?_, ?_⟩
  · intro h
    simp [create_s3filesystem, CloudStorageFileReader.endpoint, h]
  · intro h
    simp [create_s3filesystem, CloudStorageFileReader.endpoint, h]

/-- C9 witness: `claim_c9_create_s3filesystem` applied to the reader whose
endpoint is `"http://example.com"`. -/
theorem claim_c9_witness :
    startsWithL "https://".data (pyLower "http://example.com").data = false ∧
    (create_s3filesystem readerHttp).endpoint_url = "https://" ++ pyLower "http://example.com" :=
  ⟨by decide, (claim_c9_create_s3filesystem readerHttp).2.2.2.2 (by decide)⟩

/-- C10: when the reader's `properties` is `None` or not a dict,
`get_extra_dimensions_filter` returns the empty mapping and
`_filter_by_extra_dimensions` returns the dataset unchanged. -/
theorem claim_c10_properties_none_frame :
    ∀ (props : Option PyProps) (ds : Dataset),
      props = none ∨ props = some .nonDict →
      get_extra_dimensions_filter props = .ok [] ∧
      filter_by_extra_dimensions props ds = .ok ds := by
  intro props ds h
  rcases h with h | h <;> subst h <;> exact ⟨rfl, rfl⟩

/-- C10 witness: `claim_c10_properties_none_frame` applied to `properties = None`
and a concrete dataset. -/
theorem claim_c10_witness :
    ((none : Option PyProps) = none ∨ (none : Option PyProps) = some .nonDict) ∧
    (get_extra_dimensions_filter none = .ok [] ∧
     filter_by_extra_dimensions none dsEx = .ok dsEx) :=
  ⟨Or.inl rfl, claim_c10_properties_none_frame none dsEx (Or.inl rfl)⟩

end CloudStorage
